import Mathlib

/-!
Verification of the Windows path/handle metadata resolver
(`src/os/stat_windows.go`).

The Go source is shallowly embedded: each OS call (GetFileAttributesEx,
FindFirstFile, CreateFile, GetFileType, GetFileInformationByHandle, ...)
is a field of an abstract `OsApi` environment mapping inputs to either a
Windows error number or structured data.  The resolver functions `stat`,
`statHandle`, `statNolog`, `lstatNolog` and the `File.Stat` method are
translated line by line from the source; each returns its Go result
together with the ordered list of OS calls it performed (`OsEvent`
trace), which lets us state and prove properties about which strategies
ran, which handles were opened and released, and in which order.
-/

/-- Windows error number `ERROR_PATH_NOT_FOUND` (3). -/
def ERROR_PATH_NOT_FOUND : Nat := 3

/-- Windows error number `ERROR_FILE_NOT_FOUND` (2). -/
def ERROR_FILE_NOT_FOUND : Nat := 2

/-- Windows error number `ERROR_SHARING_VIOLATION` (32). -/
def ERROR_SHARING_VIOLATION : Nat := 32

/-- Attribute bit `FILE_ATTRIBUTE_REPARSE_POINT` (0x400). -/
def FILE_ATTRIBUTE_REPARSE_POINT : Nat := 1024

/-- Open flag `FILE_FLAG_BACKUP_SEMANTICS` (0x02000000). -/
def FILE_FLAG_BACKUP_SEMANTICS : Nat := 33554432

/-- Open flag `FILE_FLAG_OPEN_REPARSE_POINT` (0x00200000). -/
def FILE_FLAG_OPEN_REPARSE_POINT : Nat := 2097152

/-- File type `FILE_TYPE_DISK` (1). -/
def FILE_TYPE_DISK : Nat := 1

/-- File type `FILE_TYPE_CHAR` (2). -/
def FILE_TYPE_CHAR : Nat := 2

/-- File type `FILE_TYPE_PIPE` (3). -/
def FILE_TYPE_PIPE : Nat := 3

/-- File type `FILE_TYPE_UNKNOWN` (0). -/
def FILE_TYPE_UNKNOWN : Nat := 0

/-- Go `error` values as they appear in this file: a raw Windows `Errno`,
an `*os.PathError` wrapping an operation name, a path and a cause, or the
sentinel `os.ErrInvalid`. -/
inductive GoError where
  | errno (code : Nat)
  | pathError (op : String) (path : String) (err : GoError)
  | errInvalid
deriving DecidableEq

/-- Model of `syscall.Win32FileAttributeData`: result of `GetFileAttributesEx`. -/
structure Win32FileAttributeData where
  fileAttributes : Nat
  creationTime : Nat
  lastAccessTime : Nat
  lastWriteTime : Nat
  fileSizeHigh : Nat
  fileSizeLow : Nat
deriving DecidableEq

/-- Model of `syscall.Win32finddata`: single directory entry from `FindFirstFile`. -/
structure Win32finddata where
  fileAttributes : Nat
  creationTime : Nat
  lastAccessTime : Nat
  lastWriteTime : Nat
  fileSizeHigh : Nat
  fileSizeLow : Nat
deriving DecidableEq

/-- Model of `syscall.ByHandleFileInformation`: result of
`GetFileInformationByHandle`, including volume/file-index identity. -/
structure ByHandleFileInformation where
  fileAttributes : Nat
  creationTime : Nat
  lastAccessTime : Nat
  lastWriteTime : Nat
  volumeSerialNumber : Nat
  fileSizeHigh : Nat
  fileSizeLow : Nat
  fileIndexHigh : Nat
  fileIndexLow : Nat
deriving DecidableEq

/-- Identity fields (volume serial number, file index high/low) produced
by the "save info from path" enrichment. -/
structure FileId where
  vol : Nat
  idxhi : Nat
  idxlo : Nat
deriving DecidableEq

/-- The abstract OS API surface the resolver calls into.  Each syscall is
a pure oracle from its inputs to an `Errno` code or structured data;
handles are natural numbers.  `fixLongPath` is the path-normalization
collaborator and `saveInfoFromPath` the identity-enrichment collaborator,
both external to the source file under verification. -/
structure OsApi where
  fixLongPath : String → String
  utf16PtrFromString : String → Except Nat String
  getFileAttributesEx : String → Except Nat Win32FileAttributeData
  findFirstFile : String → Except Nat (Nat × Win32finddata)
  createFile : String → Nat → Except Nat Nat
  getFileType : Nat → Except Nat Nat
  getFileInformationByHandle : Nat → Except Nat ByHandleFileInformation
  saveInfoFromPath : String → Except GoError FileId

/-- One OS call performed by the resolver, recorded in order.  Calls that
can yield a handle record the handle obtained (`some h`) or `none` on
failure, so open/close pairing is visible in the trace. -/
inductive OsEvent where
  | getFileAttributesEx (path : String)
  | findFirstFile (path : String) (handle : Option Nat)
  | findClose (h : Nat)
  | createFile (path : String) (attrs : Nat) (handle : Option Nat)
  | closeHandle (h : Nat)
  | getFileType (h : Nat)
  | getFileInformationByHandle (h : Nat)
  | saveInfoFromPath (path : String)
deriving DecidableEq

/-- Model of the `os.fileStat` record (the canonical FileMetadata).  Fields not
set by a given producer keep their Go zero value. -/
structure FileStat where
  name : String := ""
  fileAttributes : Nat := 0
  creationTime : Nat := 0
  lastAccessTime : Nat := 0
  lastWriteTime : Nat := 0
  fileSizeHigh : Nat := 0
  fileSizeLow : Nat := 0
  filetype : Nat := 0
  vol : Nat := 0
  idxhi : Nat := 0
  idxlo : Nat := 0
deriving DecidableEq

instance {ε α : Type} [DecidableEq ε] [DecidableEq α] : DecidableEq (Except ε α) := fun a b =>
  match a, b with
  | .ok x, .ok y => if h : x = y then isTrue (by rw [h]) else isFalse (by simp [h])
  | .error x, .error y => if h : x = y then isTrue (by rw [h]) else isFalse (by simp [h])
  | .ok _, .error _ => isFalse (by simp)
  | .error _, .ok _ => isFalse (by simp)

/-- Modelled from the spec: `basename` (defined in `file.go`, outside the
file under verification) returns the base name of the path — the final
path element after the last slash or backslash separator. -/
def basename (name : String) : String :=
  String.mk ((name.data.reverse.takeWhile fun c => c ≠ '/' ∧ c ≠ '\\').reverse)

/-- Modelled from the spec: `(*fileStat).saveInfoFromPath` (defined in
`types_windows.go`, outside the file under verification) is the
follow-up "save info from path" enrichment: it retrieves the identity
fields (volume serial, file index) for `path` and records the base name,
or fails with its own error. -/
def FileStat.saveInfoFromPath (os : OsApi) (fs : FileStat) (path : String) :
    Except GoError FileStat :=
  match os.saveInfoFromPath path with
  | .error e => .error e
  | .ok fid =>
      .ok { fs with name := basename path,
                    vol := fid.vol, idxhi := fid.idxhi, idxlo := fid.idxlo }

/-- Modelled from the spec: `newFileStatFromWin32finddata` (defined in
`types_windows.go`, outside the file under verification) copies the
attribute, time and size fields of the enumeration entry into a fresh
`fileStat`; `filetype` keeps its zero value. -/
def newFileStatFromWin32finddata (fd : Win32finddata) : FileStat :=
  { fileAttributes := fd.fileAttributes,
    creationTime := fd.creationTime,
    lastAccessTime := fd.lastAccessTime,
    lastWriteTime := fd.lastWriteTime,
    fileSizeHigh := fd.fileSizeHigh,
    fileSizeLow := fd.fileSizeLow }

/-- Modelled from the spec: the pure part of
`newFileStatFromGetFileInformationByHandle` (defined in
`types_windows.go`, outside the file under verification): field copy of
the by-handle information plus identity augmentation (volume serial,
file index high/low) and the base name. -/
def newFileStatFromHandleInfo (path : String) (d : ByHandleFileInformation) : FileStat :=
  { name := basename path,
    fileAttributes := d.fileAttributes,
    creationTime := d.creationTime,
    lastAccessTime := d.lastAccessTime,
    lastWriteTime := d.lastWriteTime,
    fileSizeHigh := d.fileSizeHigh,
    fileSizeLow := d.fileSizeLow,
    vol := d.volumeSerialNumber,
    idxhi := d.fileIndexHigh,
    idxlo := d.fileIndexLow }

/-- Translation of `statHandle(name, h)`: handle-based resolver.  Queries the handle's
file type; on `FILE_TYPE_PIPE`/`FILE_TYPE_CHAR` short-circuits to a
minimal record; otherwise performs the full by-handle information query
and sets `filetype` on the result. -/
def statHandle (os : OsApi) (name : String) (h : Nat) :
    Except GoError FileStat × List OsEvent :=
  match os.getFileType h with
  | .error e =>
      (.error (.pathError "GetFileType" name (.errno e)), [.getFileType h])
  | .ok ft =>
      if ft = FILE_TYPE_PIPE ∨ ft = FILE_TYPE_CHAR then
        (.ok { name := basename name, filetype := ft }, [.getFileType h])
      else
        match os.getFileInformationByHandle h with
        | .error e =>
            (.error (.pathError "GetFileInformationByHandle" name (.errno e)),
             [.getFileType h, .getFileInformationByHandle h])
        | .ok d =>
            (.ok { newFileStatFromHandleInfo name d with filetype := ft },
             [.getFileType h, .getFileInformationByHandle h])

/-- The final `CreateFile` block of `stat`: open the path with the given
attributes, delegate to `statHandle`, and close the handle (deferred, so
after `statHandle` returns) before returning. -/
def statCreateFile (os : OsApi) (name namep : String) (createFileAttrs : Nat)
    (tr : List OsEvent) : Except GoError FileStat × List OsEvent :=
  match os.createFile namep createFileAttrs with
  | .error e =>
      (.error (.pathError "CreateFile" name (.errno e)),
       tr ++ [.createFile namep createFileAttrs none])
  | .ok h =>
      let r := statHandle os name h
      (r.1, tr ++ [.createFile namep createFileAttrs (some h)] ++ r.2 ++ [.closeHandle h])

/-- Translation of `stat(funcname, name, createFileAttrs)`: the path-based resolver
implementing both Stat and Lstat.  Empty path fails immediately; then
the path is normalized and encoded; then `GetFileAttributesEx` is tried
first, returning directly when it succeeds and the reparse-point bit is
clear; a sharing violation falls back to a single-entry `FindFirstFile`
(its handle closed immediately); any other outcome falls through to the
`CreateFile` block. -/
def stat (os : OsApi) (funcname name : String) (createFileAttrs : Nat) :
    Except GoError FileStat × List OsEvent :=
  if name.length = 0 then
    (.error (.pathError funcname name (.errno ERROR_PATH_NOT_FOUND)), [])
  else
    match os.utf16PtrFromString (os.fixLongPath name) with
    | .error e => (.error (.pathError funcname name (.errno e)), [])
    | .ok namep =>
        match os.getFileAttributesEx namep with
        | .ok fa =>
            if fa.fileAttributes &&& FILE_ATTRIBUTE_REPARSE_POINT = 0 then
              -- Not a symlink: build the record from the fast-query data.
              let fs : FileStat :=
                { fileAttributes := fa.fileAttributes,
                  creationTime := fa.creationTime,
                  lastAccessTime := fa.lastAccessTime,
                  lastWriteTime := fa.lastWriteTime,
                  fileSizeHigh := fa.fileSizeHigh,
                  fileSizeLow := fa.fileSizeLow }
              match FileStat.saveInfoFromPath os fs name with
              | .error e =>
                  (.error e, [.getFileAttributesEx namep, .saveInfoFromPath name])
              | .ok fs =>
                  (.ok fs, [.getFileAttributesEx namep, .saveInfoFromPath name])
            else
              statCreateFile os name namep createFileAttrs
                [.getFileAttributesEx namep]
        | .error e =>
            if e = ERROR_SHARING_VIOLATION then
              match os.findFirstFile namep with
              | .error e2 =>
                  (.error (.pathError "FindFirstFile" name (.errno e2)),
                   [.getFileAttributesEx namep, .findFirstFile namep none])
              | .ok (sh, fd) =>
                  let fs := newFileStatFromWin32finddata fd
                  match FileStat.saveInfoFromPath os fs name with
                  | .error e3 =>
                      (.error e3,
                       [.getFileAttributesEx namep, .findFirstFile namep (some sh),
                        .findClose sh, .saveInfoFromPath name])
                  | .ok fs =>
                      (.ok fs,
                       [.getFileAttributesEx namep, .findFirstFile namep (some sh),
                        .findClose sh, .saveInfoFromPath name])
            else
              statCreateFile os name namep createFileAttrs
                [.getFileAttributesEx namep]

/-- Translation of `statNolog(name)`: the Stat (follow-symlinks) entry point. -/
def statNolog (os : OsApi) (name : String) : Except GoError FileStat × List OsEvent :=
  stat os "Stat" name FILE_FLAG_BACKUP_SEMANTICS

/-- Translation of `lstatNolog(name)`: the Lstat (no-follow) entry point; adds
`FILE_FLAG_OPEN_REPARSE_POINT` so `CreateFile` does not follow symlinks. -/
def lstatNolog (os : OsApi) (name : String) : Except GoError FileStat × List OsEvent :=
  stat os "Lstat" name (FILE_FLAG_BACKUP_SEMANTICS ||| FILE_FLAG_OPEN_REPARSE_POINT)

/-- The directory-handle collaborator's remembered path (`file.dirinfo`). -/
structure DirInfo where
  path : String
deriving DecidableEq

/-- The fields of `os.File` that `(*File).Stat` reads: the name, the
system handle `pfd.Sysfd`, and the directory bookkeeping `dirinfo`
(present exactly when the file is an open directory, which is what
`file.isdir()` tests). -/
structure GoFile where
  name : String
  sysfd : Nat
  dirinfo : Option DirInfo
deriving DecidableEq

/-- Translation of `(*File).Stat()`: a nil receiver yields `ErrInvalid`; an open
directory re-resolves via the path-based Stat on its remembered path;
otherwise the handle-based resolver is used on the file's handle. -/
def GoFileStat (os : OsApi) (file : Option GoFile) :
    Except GoError FileStat × List OsEvent :=
  match file with
  | none => (.error .errInvalid, [])
  | some f =>
      match f.dirinfo with
      | some di => statNolog os di.path
      | none => statHandle os f.name f.sysfd

/-- Number of handles an event opens (a successful `FindFirstFile` or
`CreateFile`). -/
def eventOpens : OsEvent → Nat
  | .findFirstFile _ (some _) => 1
  | .createFile _ _ (some _) => 1
  | _ => 0

/-- Number of handles an event releases (`FindClose` or `CloseHandle`). -/
def eventCloses : OsEvent → Nat
  | .findClose _ => 1
  | .closeHandle _ => 1
  | _ => 0

/-- Total handles opened over a trace. -/
def opens (tr : List OsEvent) : Nat := (tr.map eventOpens).sum

/-- Total handles released over a trace. -/
def closes (tr : List OsEvent) : Nat := (tr.map eventCloses).sum

/-- Whether a trace contains a `CreateFile` call. -/
def hasCreateFile (tr : List OsEvent) : Bool :=
  tr.any fun e => match e with | .createFile .. => true | _ => false

/-- Whether a trace contains a `FindFirstFile` call. -/
def hasFindFirstFile (tr : List OsEvent) : Bool :=
  tr.any fun e => match e with | .findFirstFile .. => true | _ => false

/-- A resolution "returned from the fast path" when it opened no
alternate strategy at all: no enumeration and no full open. -/
def usedFastPath (tr : List OsEvent) : Bool :=
  !hasFindFirstFile tr && !hasCreateFile tr

/-! ### Concrete OS environments used as witnesses and counterexamples -/

/-- A baseline environment: identity path normalization, successful
UTF-16 encoding, every query failing with `ERROR_FILE_NOT_FOUND`, and a
successful identity enrichment. -/
def osBase : OsApi where
  fixLongPath := id
  utf16PtrFromString := fun s => .ok s
  getFileAttributesEx := fun _ => .error ERROR_FILE_NOT_FOUND
  findFirstFile := fun _ => .error ERROR_FILE_NOT_FOUND
  createFile := fun _ _ => .error ERROR_FILE_NOT_FOUND
  getFileType := fun _ => .error ERROR_FILE_NOT_FOUND
  getFileInformationByHandle := fun _ => .error ERROR_FILE_NOT_FOUND
  saveInfoFromPath := fun _ => .ok ⟨11, 22, 33⟩

/-- Attribute data of an ordinary file (archive bit only, 4096 bytes). -/
def faPlain : Win32FileAttributeData :=
  { fileAttributes := 32, creationTime := 100, lastAccessTime := 200,
    lastWriteTime := 300, fileSizeHigh := 0, fileSizeLow := 4096 }

/-- Attribute data of a reparse point (reparse bit set). -/
def faReparse : Win32FileAttributeData :=
  { fileAttributes := FILE_ATTRIBUTE_REPARSE_POINT, creationTime := 100,
    lastAccessTime := 200, lastWriteTime := 300, fileSizeHigh := 0, fileSizeLow := 0 }

/-- Environment in which the fast attribute query succeeds on an
ordinary file. -/
def osPlain : OsApi :=
  { osBase with getFileAttributesEx := fun _ => .ok faPlain }

/-- Environment in which the fast query reports a reparse point, and
`CreateFile`/by-handle queries then succeed on handle 7. -/
def osReparse : OsApi :=
  { osBase with
    getFileAttributesEx := fun _ => .ok faReparse
    createFile := fun _ _ => .ok 7
    getFileType := fun _ => .ok FILE_TYPE_DISK
    getFileInformationByHandle := fun _ =>
      .ok { fileAttributes := 32, creationTime := 100, lastAccessTime := 200,
            lastWriteTime := 300, volumeSerialNumber := 77, fileSizeHigh := 0,
            fileSizeLow := 512, fileIndexHigh := 1, fileIndexLow := 2 } }

/-- Environment in which the fast query fails with
`ERROR_FILE_NOT_FOUND` (not a sharing violation) while `CreateFile` and
the by-handle queries succeed on handle 7. -/
def osNotFound : OsApi :=
  { osBase with
    createFile := fun _ _ => .ok 7
    getFileType := fun _ => .ok FILE_TYPE_DISK
    getFileInformationByHandle := fun _ =>
      .ok { fileAttributes := 32, creationTime := 100, lastAccessTime := 200,
            lastWriteTime := 300, volumeSerialNumber := 77, fileSizeHigh := 0,
            fileSizeLow := 512, fileIndexHigh := 1, fileIndexLow := 2 } }

/-- Environment in which the fast query succeeds on an ordinary file but
the identity enrichment fails with errno 5 (access denied). -/
def osEnrichFail : OsApi :=
  { osBase with
    getFileAttributesEx := fun _ => .ok faPlain
    saveInfoFromPath := fun _ => .error (.errno 5) }

/-- Environment whose handles are named pipes. -/
def osPipe : OsApi :=
  { osBase with getFileType := fun _ => .ok FILE_TYPE_PIPE }

/-- Enumeration entry for the pagefile scenario: an ordinary file of
123456789 bytes. -/
def fdPagefile : Win32finddata :=
  { fileAttributes := 32, creationTime := 100, lastAccessTime := 200,
    lastWriteTime := 300, fileSizeHigh := 0, fileSizeLow := 123456789 }

/-- Environment reproducing the `C:\pagefile.sys` scenario: the fast
query fails with a sharing violation and `FindFirstFile` succeeds with
enumeration handle 5. -/
def pagefileOS : OsApi :=
  { osBase with
    getFileAttributesEx := fun _ => .error ERROR_SHARING_VIOLATION
    findFirstFile := fun _ => .ok (5, fdPagefile) }

/-! ### Theorems -/

/-- C3: for the empty path, both entry points fail immediately with
`ERROR_PATH_NOT_FOUND` wrapped in a `PathError` whose operation tag is
"Stat" for the follow variant and "Lstat" for the no-follow variant, and
the OS-call trace is empty (no OS calls are performed). -/
theorem c3_empty_path (os : OsApi) :
    statNolog os "" =
      (.error (.pathError "Stat" "" (.errno ERROR_PATH_NOT_FOUND)), []) ∧
    lstatNolog os "" =
      (.error (.pathError "Lstat" "" (.errno ERROR_PATH_NOT_FOUND)), []) :=
  ⟨rfl, rfl⟩

/-- C5: whenever the OS reports the handle's file type as Pipe or
Character, `statHandle` returns success with a record carrying only the
basename of the given name and the file type (all other fields at their
zero values), and its trace is exactly the one type query — no further
OS calls. -/
theorem c5_pipe_char_short_circuit (os : OsApi) (name : String) (h ft : Nat)
    (hft : os.getFileType h = .ok ft)
    (hpc : ft = FILE_TYPE_PIPE ∨ ft = FILE_TYPE_CHAR) :
    statHandle os name h =
      (.ok { name := basename name, filetype := ft }, [.getFileType h]) := by
  unfold statHandle
  rw [hft]
  simp [hpc]

/-- Witness for C5 at a concrete environment: a pipe handle resolved in
`osPipe`. -/
theorem c5_witness :
    statHandle osPipe "a\\b" 4 =
      (.ok { name := basename "a\\b", filetype := FILE_TYPE_PIPE }, [.getFileType 4]) :=
  c5_pipe_char_short_circuit osPipe "a\\b" 4 FILE_TYPE_PIPE rfl (Or.inl rfl)

/-- C10: `(*File).Stat` on a nil `File` returns `ErrInvalid` (a bare
sentinel, not a `PathError`) with no OS calls; on a `File` whose
directory bookkeeping is present, it delegates to the path-based,
symlink-following resolver `statNolog` on the remembered path. -/
theorem c10_file_stat (os : OsApi) (f : GoFile) (di : DirInfo) :
    GoFileStat os none = (.error .errInvalid, []) ∧
    (f.dirinfo = some di → GoFileStat os (some f) = statNolog os di.path) := by
  refine ⟨rfl, fun hdir => ?_⟩
  simp only [GoFileStat, hdir]

/-- Witness for C10 at a concrete directory file value. -/
theorem c10_witness :
    GoFileStat osPlain none = (.error .errInvalid, []) ∧
    GoFileStat osPlain (some ⟨"d", 9, some ⟨"C:\\dir"⟩⟩) = statNolog osPlain "C:\\dir" :=
  ⟨(c10_file_stat osPlain ⟨"d", 9, some ⟨"C:\\dir"⟩⟩ ⟨"C:\\dir"⟩).1,
   (c10_file_stat osPlain ⟨"d", 9, some ⟨"C:\\dir"⟩⟩ ⟨"C:\\dir"⟩).2 rfl⟩

/-- Evaluation of `eventOpens` and `eventCloses` on each event shape. -/
theorem eventCounts_eval :
    (∀ p, eventOpens (.getFileAttributesEx p) = 0 ∧ eventCloses (.getFileAttributesEx p) = 0) ∧
    (∀ p h, eventOpens (.findFirstFile p (some h)) = 1 ∧ eventCloses (.findFirstFile p (some h)) = 0) ∧
    (∀ p, eventOpens (.findFirstFile p none) = 0 ∧ eventCloses (.findFirstFile p none) = 0) ∧
    (∀ h, eventOpens (.findClose h) = 0 ∧ eventCloses (.findClose h) = 1) ∧
    (∀ p a h, eventOpens (.createFile p a (some h)) = 1 ∧ eventCloses (.createFile p a (some h)) = 0) ∧
    (∀ p a, eventOpens (.createFile p a none) = 0 ∧ eventCloses (.createFile p a none) = 0) ∧
    (∀ h, eventOpens (.closeHandle h) = 0 ∧ eventCloses (.closeHandle h) = 1) ∧
    (∀ h, eventOpens (.getFileType h) = 0 ∧ eventCloses (.getFileType h) = 0) ∧
    (∀ h, eventOpens (.getFileInformationByHandle h) = 0 ∧ eventCloses (.getFileInformationByHandle h) = 0) ∧
    (∀ p, eventOpens (.saveInfoFromPath p) = 0 ∧ eventCloses (.saveInfoFromPath p) = 0) :=
  ⟨fun _ => ⟨rfl, rfl⟩, fun _ _ => ⟨rfl, rfl⟩, fun _ => ⟨rfl, rfl⟩, fun _ => ⟨rfl, rfl⟩,
   fun _ _ _ => ⟨rfl, rfl⟩, fun _ _ => ⟨rfl, rfl⟩, fun _ => ⟨rfl, rfl⟩, fun _ => ⟨rfl, rfl⟩,
   fun _ => ⟨rfl, rfl⟩, fun _ => ⟨rfl, rfl⟩⟩

/-- Lemma: `opens` distributes over trace concatenation. -/
theorem opens_append (a b : List OsEvent) : opens (a ++ b) = opens a + opens b := by
  simp [opens]

/-- Lemma: `closes` distributes over trace concatenation. -/
theorem closes_append (a b : List OsEvent) : closes (a ++ b) = closes a + closes b := by
  simp [closes]

/-- The handle-based resolver neither opens nor releases any handle: it
only queries the handle it was given. -/
theorem statHandle_no_handles (os : OsApi) (name : String) (h : Nat) :
    opens (statHandle os name h).2 = 0 ∧ closes (statHandle os name h).2 = 0 := by
  unfold statHandle
  rcases os.getFileType h with e | ft
  · simp [opens, closes, eventCounts_eval]
  · by_cases hpc : ft = FILE_TYPE_PIPE ∨ ft = FILE_TYPE_CHAR
    · simp [hpc, opens, closes, eventCounts_eval]
    · rcases os.getFileInformationByHandle h with e | d <;>
        simp [hpc, opens, closes, eventCounts_eval]

/-- The `CreateFile` block is handle-balanced whenever the trace it
extends is: a failed open adds nothing, a successful open is paired with
the deferred `CloseHandle` after `statHandle` (which opens nothing). -/
theorem statCreateFile_balanced (os : OsApi) (name namep : String) (a : Nat)
    (tr : List OsEvent) (hb : opens tr = closes tr) :
    opens (statCreateFile os name namep a tr).2 =
      closes (statCreateFile os name namep a tr).2 := by
  unfold statCreateFile
  rcases os.createFile namep a with e | h
  · simp only [opens, closes] at hb ⊢
    simp [hb, eventCounts_eval]
  · have hh := statHandle_no_handles os name h
    simp only [opens, closes] at hb hh ⊢
    simp [hb, hh.1, hh.2, eventCounts_eval]

/-- The record `stat` builds directly from fast-query data (the composite
literal at the top of the success branch). -/
def fileStatFromAttributeData (fa : Win32FileAttributeData) : FileStat :=
  { fileAttributes := fa.fileAttributes,
    creationTime := fa.creationTime,
    lastAccessTime := fa.lastAccessTime,
    lastWriteTime := fa.lastWriteTime,
    fileSizeHigh := fa.fileSizeHigh,
    fileSizeLow := fa.fileSizeLow }

/-- Branch equation: UTF-16 encoding failure is returned tagged with the
requested operation and no OS call is traced. -/
theorem stat_utf16_error (os : OsApi) (fn name : String) (a e : Nat)
    (h0 : name.length ≠ 0)
    (h1 : os.utf16PtrFromString (os.fixLongPath name) = .error e) :
    stat os fn name a = (.error (.pathError fn name (.errno e)), []) := by
  unfold stat
  rw [if_neg h0]
  simp only [h1]

/-- Branch equation: when the fast query succeeds and the reparse bit is
clear, `stat` returns the enrichment of the record built from the fast
data, after exactly the fast query and the enrichment call. -/
theorem stat_fast_path (os : OsApi) (fn name namep : String) (a : Nat)
    (fa : Win32FileAttributeData)
    (h0 : name.length ≠ 0)
    (h1 : os.utf16PtrFromString (os.fixLongPath name) = .ok namep)
    (h2 : os.getFileAttributesEx namep = .ok fa)
    (h3 : fa.fileAttributes &&& FILE_ATTRIBUTE_REPARSE_POINT = 0) :
    stat os fn name a =
      (FileStat.saveInfoFromPath os (fileStatFromAttributeData fa) name,
       [.getFileAttributesEx namep, .saveInfoFromPath name]) := by
  unfold stat
  rw [if_neg h0]
  simp only [h1, h2, h3, if_pos]
  rcases hsv : FileStat.saveInfoFromPath os (fileStatFromAttributeData fa) name with e | fs <;>
    · simp only [fileStatFromAttributeData] at hsv
      simp only [hsv]

/-- Branch equation: when the fast query succeeds but the reparse bit is
set, `stat` falls through to the `CreateFile` block. -/
theorem stat_reparse_fallthrough (os : OsApi) (fn name namep : String) (a : Nat)
    (fa : Win32FileAttributeData)
    (h0 : name.length ≠ 0)
    (h1 : os.utf16PtrFromString (os.fixLongPath name) = .ok namep)
    (h2 : os.getFileAttributesEx namep = .ok fa)
    (h3 : fa.fileAttributes &&& FILE_ATTRIBUTE_REPARSE_POINT ≠ 0) :
    stat os fn name a = statCreateFile os name namep a [.getFileAttributesEx namep] := by
  unfold stat
  rw [if_neg h0]
  simp only [h1, h2, h3, if_neg]
  simp

/-- Branch equation: a sharing violation from the fast query followed by
a failed `FindFirstFile` yields that failure, tagged "FindFirstFile". -/
theorem stat_sharing_ff_error (os : OsApi) (fn name namep : String) (a e2 : Nat)
    (h0 : name.length ≠ 0)
    (h1 : os.utf16PtrFromString (os.fixLongPath name) = .ok namep)
    (h2 : os.getFileAttributesEx namep = .error ERROR_SHARING_VIOLATION)
    (h3 : os.findFirstFile namep = .error e2) :
    stat os fn name a =
      (.error (.pathError "FindFirstFile" name (.errno e2)),
       [.getFileAttributesEx namep, .findFirstFile namep none]) := by
  unfold stat
  rw [if_neg h0]
  simp only [h1, h2, h3, if_pos]

/-- Branch equation: a sharing violation from the fast query followed by
a successful `FindFirstFile` yields the enrichment of the record copied
from the enumeration entry; the enumeration handle is closed right after
the call and before the enrichment. -/
theorem stat_sharing_ff_ok (os : OsApi) (fn name namep : String) (a sh : Nat)
    (fd : Win32finddata)
    (h0 : name.length ≠ 0)
    (h1 : os.utf16PtrFromString (os.fixLongPath name) = .ok namep)
    (h2 : os.getFileAttributesEx namep = .error ERROR_SHARING_VIOLATION)
    (h3 : os.findFirstFile namep = .ok (sh, fd)) :
    stat os fn name a =
      (FileStat.saveInfoFromPath os (newFileStatFromWin32finddata fd) name,
       [.getFileAttributesEx namep, .findFirstFile namep (some sh),
        .findClose sh, .saveInfoFromPath name]) := by
  unfold stat
  rw [if_neg h0]
  simp only [h1, h2, h3, if_pos]
  rcases hsv : FileStat.saveInfoFromPath os (newFileStatFromWin32finddata fd) name with e | fs <;>
    simp only [hsv]

/-- Branch equation: any fast-query error other than a sharing violation
falls through to the `CreateFile` block. -/
theorem stat_error_fallthrough (os : OsApi) (fn name namep : String) (a e : Nat)
    (h0 : name.length ≠ 0)
    (h1 : os.utf16PtrFromString (os.fixLongPath name) = .ok namep)
    (h2 : os.getFileAttributesEx namep = .error e)
    (h3 : e ≠ ERROR_SHARING_VIOLATION) :
    stat os fn name a = statCreateFile os name namep a [.getFileAttributesEx namep] := by
  unfold stat
  rw [if_neg h0]
  simp only [h1, h2, h3, if_neg]
  simp

/-- C6: for every execution of the path-based resolver — fast-path
success, enumeration fallback, full-open fallback, and every failure
exit — the number of handles the resolver opened (successful
`FindFirstFile` and `CreateFile` calls) equals the number it released
(`FindClose` and `CloseHandle` calls) in the trace of the completed
call; since the trace lists exactly the OS calls made before returning,
every release happens before the result or error reaches the caller. -/
theorem c6_handle_balance (os : OsApi) (funcname name : String) (createFileAttrs : Nat) :
    opens (stat os funcname name createFileAttrs).2 =
      closes (stat os funcname name createFileAttrs).2 := by
  by_cases h0 : name.length = 0
  · unfold stat
    simp [h0, opens, closes]
  · rcases h1 : os.utf16PtrFromString (os.fixLongPath name) with e | namep
    · rw [stat_utf16_error os funcname name createFileAttrs e h0 h1]
      rfl
    · rcases h2 : os.getFileAttributesEx namep with e | fa
      · by_cases hs : e = ERROR_SHARING_VIOLATION
        · subst hs
          rcases h3 : os.findFirstFile namep with e2 | shfd
          · rw [stat_sharing_ff_error os funcname name namep createFileAttrs e2 h0 h1 h2 h3]
            simp [opens, closes, eventCounts_eval]
          · obtain ⟨sh, fd⟩ := shfd
            rw [stat_sharing_ff_ok os funcname name namep createFileAttrs sh fd h0 h1 h2 h3]
            simp [opens, closes, eventCounts_eval]
        · rw [stat_error_fallthrough os funcname name namep createFileAttrs e h0 h1 h2 hs]
          exact statCreateFile_balanced os name namep createFileAttrs _
            (by simp [opens, closes, eventCounts_eval])
      · by_cases hr : fa.fileAttributes &&& FILE_ATTRIBUTE_REPARSE_POINT = 0
        · rw [stat_fast_path os funcname name namep createFileAttrs fa h0 h1 h2 hr]
          simp [opens, closes, eventCounts_eval]
        · rw [stat_reparse_fallthrough os funcname name namep createFileAttrs fa h0 h1 h2 hr]
          exact statCreateFile_balanced os name namep createFileAttrs _
            (by simp [opens, closes, eventCounts_eval])

/-- The handle-based resolver never performs a `CreateFile` call. -/
theorem statHandle_no_createFile (os : OsApi) (name : String) (h : Nat)
    (p : String) (a : Nat) (oh : Option Nat) :
    OsEvent.createFile p a oh ∉ (statHandle os name h).2 := by
  unfold statHandle
  rcases os.getFileType h with e | ft
  · simp
  · by_cases hpc : ft = FILE_TYPE_PIPE ∨ ft = FILE_TYPE_CHAR
    · simp [hpc]
    · rcases os.getFileInformationByHandle h with e | d <;> simp [hpc]

/-- Any `CreateFile` event produced by the `CreateFile` block carries
exactly the attribute word the block was given. -/
theorem statCreateFile_attrs (os : OsApi) (name namep : String) (a : Nat)
    (tr : List OsEvent) (p : String) (a2 : Nat) (oh : Option Nat)
    (htr : OsEvent.createFile p a2 oh ∉ tr)
    (hmem : OsEvent.createFile p a2 oh ∈ (statCreateFile os name namep a tr).2) :
    a2 = a := by
  unfold statCreateFile at hmem
  rcases hcf : os.createFile namep a with e | h <;> simp only [hcf] at hmem
  · simp only [List.mem_append, List.mem_singleton] at hmem
    rcases hmem with hm | hm
    · exact absurd hm htr
    · simp only [OsEvent.createFile.injEq] at hm
      exact hm.2.1
  · simp only [List.append_assoc, List.mem_append, List.mem_singleton] at hmem
    rcases hmem with hm | hm | hm | hm
    · exact absurd hm htr
    · simp only [OsEvent.createFile.injEq] at hm
      exact hm.2.1
    · exact absurd hm (statHandle_no_createFile os name h p a2 oh)
    · simp at hm

/-- Every `CreateFile` event in a `stat` trace carries exactly the
`createFileAttrs` word `stat` was called with: the flags are passed
through unchanged to the full-open fallback. -/
theorem stat_createFile_attrs (os : OsApi) (fn name : String) (a : Nat)
    (p : String) (a2 : Nat) (oh : Option Nat)
    (hmem : OsEvent.createFile p a2 oh ∈ (stat os fn name a).2) : a2 = a := by
  by_cases h0 : name.length = 0
  · unfold stat at hmem
    simp [h0] at hmem
  · rcases h1 : os.utf16PtrFromString (os.fixLongPath name) with e | namep
    · rw [stat_utf16_error os fn name a e h0 h1] at hmem
      simp at hmem
    · rcases h2 : os.getFileAttributesEx namep with e | fa
      · by_cases hs : e = ERROR_SHARING_VIOLATION
        · subst hs
          rcases h3 : os.findFirstFile namep with e2 | shfd
          · rw [stat_sharing_ff_error os fn name namep a e2 h0 h1 h2 h3] at hmem
            simp at hmem
          · obtain ⟨sh, fd⟩ := shfd
            rw [stat_sharing_ff_ok os fn name namep a sh fd h0 h1 h2 h3] at hmem
            simp at hmem
        · rw [stat_error_fallthrough os fn name namep a e h0 h1 h2 hs] at hmem
          exact statCreateFile_attrs os name namep a _ p a2 oh (by simp) hmem
      · by_cases hr : fa.fileAttributes &&& FILE_ATTRIBUTE_REPARSE_POINT = 0
        · rw [stat_fast_path os fn name namep a fa h0 h1 h2 hr] at hmem
          simp at hmem
        · rw [stat_reparse_fallthrough os fn name namep a fa h0 h1 h2 hr] at hmem
          exact statCreateFile_attrs os name namep a _ p a2 oh (by simp) hmem

/-- C4: every `CreateFile` open performed under the Stat entry point
uses exactly `FILE_FLAG_BACKUP_SEMANTICS` (backup semantics set, the
reparse-open bit clear), and every one performed under the Lstat entry
point uses exactly `FILE_FLAG_BACKUP_SEMANTICS ||| FILE_FLAG_OPEN_REPARSE_POINT`
(both set); the flag word each entry point fixes is passed unchanged to
the full-open fallback.  `statNolog` and `lstatNolog` are the only
functions that call the path-based `stat`. -/
theorem c4_entry_point_flags (os : OsApi) (name p : String) (a : Nat) (oh : Option Nat) :
    (OsEvent.createFile p a oh ∈ (statNolog os name).2 →
      a = FILE_FLAG_BACKUP_SEMANTICS ∧
      a &&& FILE_FLAG_BACKUP_SEMANTICS = FILE_FLAG_BACKUP_SEMANTICS ∧
      a &&& FILE_FLAG_OPEN_REPARSE_POINT = 0) ∧
    (OsEvent.createFile p a oh ∈ (lstatNolog os name).2 →
      a = FILE_FLAG_BACKUP_SEMANTICS ||| FILE_FLAG_OPEN_REPARSE_POINT ∧
      a &&& FILE_FLAG_BACKUP_SEMANTICS = FILE_FLAG_BACKUP_SEMANTICS ∧
      a &&& FILE_FLAG_OPEN_REPARSE_POINT = FILE_FLAG_OPEN_REPARSE_POINT) := by
  constructor
  · intro hmem
    have ha := stat_createFile_attrs os "Stat" name FILE_FLAG_BACKUP_SEMANTICS p a oh hmem
    subst ha
    exact ⟨rfl, by decide, by decide⟩
  · intro hmem
    have ha := stat_createFile_attrs os "Lstat" name
      (FILE_FLAG_BACKUP_SEMANTICS ||| FILE_FLAG_OPEN_REPARSE_POINT) p a oh hmem
    subst ha
    exact ⟨rfl, by decide, by decide⟩

/-- Witness for C4: in the `osReparse` environment both entry points
reach the full-open fallback, and the openings carry the two flag words. -/
theorem c4_witness :
    (33554432 = FILE_FLAG_BACKUP_SEMANTICS ∧
     33554432 &&& FILE_FLAG_BACKUP_SEMANTICS = FILE_FLAG_BACKUP_SEMANTICS ∧
     33554432 &&& FILE_FLAG_OPEN_REPARSE_POINT = 0) ∧
    (35651584 = FILE_FLAG_BACKUP_SEMANTICS ||| FILE_FLAG_OPEN_REPARSE_POINT ∧
     35651584 &&& FILE_FLAG_BACKUP_SEMANTICS = FILE_FLAG_BACKUP_SEMANTICS ∧
     35651584 &&& FILE_FLAG_OPEN_REPARSE_POINT = FILE_FLAG_OPEN_REPARSE_POINT) :=
  ⟨(c4_entry_point_flags osReparse "q" "q" 33554432 (some 7)).1 (by decide),
   (c4_entry_point_flags osReparse "q" "q" 35651584 (some 7)).2 (by decide)⟩

/-- The `CreateFile` block always records a `CreateFile` call in its
trace, whether the open succeeds or fails. -/
theorem statCreateFile_hasCreateFile (os : OsApi) (name namep : String) (a : Nat)
    (tr : List OsEvent) :
    hasCreateFile (statCreateFile os name namep a tr).2 = true := by
  unfold statCreateFile
  rcases os.createFile namep a with e | h <;> simp [hasCreateFile]

/-- C1 (counterexample): under the Lstat (no-follow) entry point, on
a path whose fast attribute query succeeds with the reparse-point bit
set, the resolver does **not** return from the fast path even though the
caller did not ask to follow symlinks (the no-follow attribute word has
the reparse-open bit set): it proceeds to a `CreateFile` open.  This
refutes the claim that fast-path success is returned whenever the caller
did not ask to follow symlinks or the reparse bit is clear. -/
theorem c1_counterexample :
    osReparse.getFileAttributesEx "p" = .ok faReparse ∧
    faReparse.fileAttributes &&& FILE_ATTRIBUTE_REPARSE_POINT = FILE_ATTRIBUTE_REPARSE_POINT ∧
    (FILE_FLAG_BACKUP_SEMANTICS ||| FILE_FLAG_OPEN_REPARSE_POINT) &&&
      FILE_FLAG_OPEN_REPARSE_POINT = FILE_FLAG_OPEN_REPARSE_POINT ∧
    usedFastPath (lstatNolog osReparse "p").2 = false ∧
    hasCreateFile (lstatNolog osReparse "p").2 = true := by
  decide

/-- C1 (amended): for every path whose fast attribute query
succeeds, the resolver returns from the fast path exactly when the
reparse-point bit in the returned attributes is clear — regardless of
whether the caller asked to follow symlinks — and in that case the
result is the identity enrichment of the record built directly from the
fast-query data. -/
theorem c1_fast_path_iff (os : OsApi) (fn name namep : String) (a : Nat)
    (fa : Win32FileAttributeData)
    (h0 : name.length ≠ 0)
    (h1 : os.utf16PtrFromString (os.fixLongPath name) = .ok namep)
    (h2 : os.getFileAttributesEx namep = .ok fa) :
    (usedFastPath (stat os fn name a).2 = true ↔
      fa.fileAttributes &&& FILE_ATTRIBUTE_REPARSE_POINT = 0) ∧
    (fa.fileAttributes &&& FILE_ATTRIBUTE_REPARSE_POINT = 0 →
      (stat os fn name a).1 =
        FileStat.saveInfoFromPath os (fileStatFromAttributeData fa) name) := by
  by_cases hr : fa.fileAttributes &&& FILE_ATTRIBUTE_REPARSE_POINT = 0
  · rw [stat_fast_path os fn name namep a fa h0 h1 h2 hr]
    refine ⟨⟨fun _ => hr, fun _ => ?_⟩, fun _ => rfl⟩
    simp [usedFastPath, hasCreateFile, hasFindFirstFile]
  · rw [stat_reparse_fallthrough os fn name namep a fa h0 h1 h2 hr]
    refine ⟨⟨fun hfast => ?_, fun hc => absurd hc hr⟩, fun hc => absurd hc hr⟩
    have hcf := statCreateFile_hasCreateFile os name namep a [.getFileAttributesEx namep]
    simp [usedFastPath, hcf] at hfast

/-- Witness for the amended C1: in `osPlain` the fast query succeeds on
an ordinary file, the fast path is taken, and the result is the
enrichment of the record copied from the fast-query data. -/
theorem c1_witness :
    usedFastPath (statNolog osPlain "p").2 = true ∧
    (statNolog osPlain "p").1 =
      FileStat.saveInfoFromPath osPlain (fileStatFromAttributeData faPlain) "p" :=
  ⟨(c1_fast_path_iff osPlain "Stat" "p" "p" FILE_FLAG_BACKUP_SEMANTICS faPlain
      (by decide) rfl rfl).1.mpr (by decide),
   (c1_fast_path_iff osPlain "Stat" "p" "p" FILE_FLAG_BACKUP_SEMANTICS faPlain
      (by decide) rfl rfl).2 (by decide)⟩

/-- C2 (counterexample): in `osNotFound` the fast attribute query
fails with `ERROR_FILE_NOT_FOUND`, which is not a sharing violation, yet
the error is not terminal and is not propagated: the resolver falls back
to `CreateFile` and the overall call *succeeds*.  This refutes the claim
that every non-sharing-violation fast-query error is terminal and
propagated unchanged with no fallback attempted. -/
theorem c2_counterexample :
    osNotFound.getFileAttributesEx "p" = .error ERROR_FILE_NOT_FOUND ∧
    (ERROR_FILE_NOT_FOUND == ERROR_SHARING_VIOLATION) = false ∧
    hasCreateFile (statNolog osNotFound "p").2 = true ∧
    (statNolog osNotFound "p").1 =
      .ok { name := "p", fileAttributes := 32, creationTime := 100,
            lastAccessTime := 200, lastWriteTime := 300, fileSizeHigh := 0,
            fileSizeLow := 512, filetype := FILE_TYPE_DISK,
            vol := 77, idxhi := 1, idxlo := 2 } := by
  decide

/-- C2 (amended): a sharing violation is the only fast-query error
diverted to the enumeration fallback; every *other* fast-query error
causes the resolver to proceed to the full-open (`CreateFile`) fallback
— the fast-query error itself is discarded, not propagated. -/
theorem c2_error_fallback (os : OsApi) (fn name namep : String) (a e : Nat)
    (h0 : name.length ≠ 0)
    (h1 : os.utf16PtrFromString (os.fixLongPath name) = .ok namep)
    (h2 : os.getFileAttributesEx namep = .error e)
    (h3 : e ≠ ERROR_SHARING_VIOLATION) :
    stat os fn name a = statCreateFile os name namep a [.getFileAttributesEx namep] ∧
    hasCreateFile (stat os fn name a).2 = true := by
  have heq := stat_error_fallthrough os fn name namep a e h0 h1 h2 h3
  refine ⟨heq, ?_⟩
  rw [heq]
  exact statCreateFile_hasCreateFile os name namep a [.getFileAttributesEx namep]

/-- Witness for the amended C2: the `osNotFound` environment reaches the
`CreateFile` fallback after a not-found fast-query error. -/
theorem c2_witness :
    statNolog osNotFound "p" =
      statCreateFile osNotFound "p" "p" FILE_FLAG_BACKUP_SEMANTICS
        [.getFileAttributesEx "p"] ∧
    hasCreateFile (statNolog osNotFound "p").2 = true :=
  c2_error_fallback osNotFound "Stat" "p" "p" FILE_FLAG_BACKUP_SEMANTICS
    ERROR_FILE_NOT_FOUND (by decide) rfl rfl (by decide)

/-- C7: whenever metadata has been gathered via the fast attribute
query (success with reparse bit clear) or via the `FindFirstFile`
fallback (sharing violation then successful enumeration), the resolver
performs the "save info from path" identity enrichment, and if the
enrichment fails the whole call fails with exactly the enrichment's
error — the already-gathered metadata is not returned. -/
theorem c7_enrichment_failure (os : OsApi) (fn name namep : String) (a : Nat)
    (fa : Win32FileAttributeData) (sh : Nat) (fd : Win32finddata) (e : GoError)
    (h0 : name.length ≠ 0)
    (h1 : os.utf16PtrFromString (os.fixLongPath name) = .ok namep)
    (hgather :
      (os.getFileAttributesEx namep = .ok fa ∧
        fa.fileAttributes &&& FILE_ATTRIBUTE_REPARSE_POINT = 0) ∨
      (os.getFileAttributesEx namep = .error ERROR_SHARING_VIOLATION ∧
        os.findFirstFile namep = .ok (sh, fd))) :
    OsEvent.saveInfoFromPath name ∈ (stat os fn name a).2 ∧
    (os.saveInfoFromPath name = .error e → (stat os fn name a).1 = .error e) := by
  rcases hgather with ⟨h2, h3⟩ | ⟨h2, h3⟩
  · rw [stat_fast_path os fn name namep a fa h0 h1 h2 h3]
    refine ⟨by simp, fun hsv => ?_⟩
    simp [FileStat.saveInfoFromPath, hsv]
  · rw [stat_sharing_ff_ok os fn name namep a sh fd h0 h1 h2 h3]
    refine ⟨by simp, fun hsv => ?_⟩
    simp [FileStat.saveInfoFromPath, hsv]

/-- Witness for C7: in `osEnrichFail` the fast path gathers metadata,
then the enrichment fails with errno 5 and the call returns exactly that
error. -/
theorem c7_witness :
    OsEvent.saveInfoFromPath "p" ∈ (statNolog osEnrichFail "p").2 ∧
    (statNolog osEnrichFail "p").1 = .error (.errno 5) := by
  have h := c7_enrichment_failure osEnrichFail "Stat" "p" "p" FILE_FLAG_BACKUP_SEMANTICS
    faPlain 0 ⟨0, 0, 0, 0, 0, 0⟩ (.errno 5) (by decide) rfl (Or.inl ⟨rfl, by decide⟩)
  exact ⟨h.1, h.2 rfl⟩

/-- C8: for a non-empty path whose fast attribute query either
succeeds with the reparse-point bit clear (an existing regular file that
is not a reparse point) or fails with a sharing violation (a regular
file in exclusive use), resolving with follow-symlinks (`statNolog`) and
without (`lstatNolog`) return identical results — metadata and OS-call
trace alike. -/
theorem c8_stat_lstat_agree (os : OsApi) (name namep : String)
    (fa : Win32FileAttributeData)
    (h0 : name.length ≠ 0)
    (h1 : os.utf16PtrFromString (os.fixLongPath name) = .ok namep)
    (hreg :
      (os.getFileAttributesEx namep = .ok fa ∧
        fa.fileAttributes &&& FILE_ATTRIBUTE_REPARSE_POINT = 0) ∨
      os.getFileAttributesEx namep = .error ERROR_SHARING_VIOLATION) :
    statNolog os name = lstatNolog os name := by
  rcases hreg with ⟨h2, h3⟩ | h2
  · unfold statNolog lstatNolog
    rw [stat_fast_path os "Stat" name namep FILE_FLAG_BACKUP_SEMANTICS fa h0 h1 h2 h3,
        stat_fast_path os "Lstat" name namep
          (FILE_FLAG_BACKUP_SEMANTICS ||| FILE_FLAG_OPEN_REPARSE_POINT) fa h0 h1 h2 h3]
  · unfold statNolog lstatNolog
    rcases h3 : os.findFirstFile namep with e2 | shfd
    · rw [stat_sharing_ff_error os "Stat" name namep FILE_FLAG_BACKUP_SEMANTICS e2 h0 h1 h2 h3,
          stat_sharing_ff_error os "Lstat" name namep
            (FILE_FLAG_BACKUP_SEMANTICS ||| FILE_FLAG_OPEN_REPARSE_POINT) e2 h0 h1 h2 h3]
    · obtain ⟨sh, fd⟩ := shfd
      rw [stat_sharing_ff_ok os "Stat" name namep FILE_FLAG_BACKUP_SEMANTICS sh fd h0 h1 h2 h3,
          stat_sharing_ff_ok os "Lstat" name namep
            (FILE_FLAG_BACKUP_SEMANTICS ||| FILE_FLAG_OPEN_REPARSE_POINT) sh fd h0 h1 h2 h3]

/-- Witness for C8: on the ordinary file of `osPlain`, Stat and Lstat
agree. -/
theorem c8_witness : statNolog osPlain "p" = lstatNolog osPlain "p" :=
  c8_stat_lstat_agree osPlain "p" "p" faPlain (by decide) rfl (Or.inl ⟨rfl, by decide⟩)

/-- The metadata record produced for `C:\pagefile.sys` in the
`pagefileOS` scenario: field copy of the enumeration entry, identity
enrichment, base name, `filetype` left at `FILE_TYPE_UNKNOWN` (the
Disk/Unknown-equivalent default — no handle was opened to ask). -/
def pagefileMeta : FileStat :=
  { name := "pagefile.sys", fileAttributes := 32, creationTime := 100,
    lastAccessTime := 200, lastWriteTime := 300, fileSizeHigh := 0,
    fileSizeLow := 123456789, filetype := FILE_TYPE_UNKNOWN,
    vol := 11, idxhi := 22, idxlo := 33 }

/-- C9: on `C:\pagefile.sys`, whose fast attribute query fails with
a sharing violation, the resolver succeeds via the single-entry
`FindFirstFile` fallback, closes the enumeration handle immediately
after the call (before the enrichment), returns metadata carrying the
enumeration entry's size with a type that is neither Pipe nor Character
(`FILE_TYPE_UNKNOWN`, the Disk/Unknown-equivalent default), and never
performs a `CreateFile` open. -/
theorem c9_pagefile :
    statNolog pagefileOS "C:\\pagefile.sys" =
      (.ok pagefileMeta,
       [.getFileAttributesEx "C:\\pagefile.sys",
        .findFirstFile "C:\\pagefile.sys" (some 5), .findClose 5,
        .saveInfoFromPath "C:\\pagefile.sys"]) ∧
    pagefileMeta.fileSizeHigh = fdPagefile.fileSizeHigh ∧
    pagefileMeta.fileSizeLow = fdPagefile.fileSizeLow ∧
    (pagefileMeta.filetype == FILE_TYPE_PIPE) = false ∧
    (pagefileMeta.filetype == FILE_TYPE_CHAR) = false ∧
    hasCreateFile (statNolog pagefileOS "C:\\pagefile.sys").2 = false ∧
    opens (statNolog pagefileOS "C:\\pagefile.sys").2 =
      closes (statNolog pagefileOS "C:\\pagefile.sys").2 := by
  decide
